import Mathlib

/-
Verification of the cw-it module simulation engine: shallow embedding of
the token-factory modules (generic and Coreum variants), the Coreum custom
query module and the unified stargate query bridge, together with proofs of
the behavioural claims about them.

Rust strings are modelled as Lean `String` (the strings handled by these
modules are ASCII, so byte length and character length coincide); `u128` /
`Uint128` amounts are modelled as `Nat` with an explicit `< 2 ^ 128` bound
at every parse site, mirroring `u128::from_str` overflow failure.  Fallible
handlers return an `ExecResult`, whose `crash` constructor marks a Rust
panic (an unchecked slice index or `unwrap`), as opposed to `err`, which is
a returned `anyhow` error.  Mutable storage (`&mut dyn Storage`) is
modelled by state passing: every handler returns the storage as it is after
the call, *also on error*, exactly as the Rust functions leave their
mutations behind when they bail.
-/

namespace CwIt

/-- Outcome of a fallible handler: `ok`, a returned error (`anyhow::bail!`),
or a Rust panic (`crash`). -/
inductive ExecResult (α : Type) where
  | ok (val : α)
  | err (msg : String)
  | crash (msg : String)
deriving DecidableEq, Repr

/-- A structured event: name plus ordered attribute list,
as in `cosmwasm_std::Event`. -/
structure Event where
  ty : String
  attributes : List (String × String)
deriving DecidableEq, Repr

/-- Response of a successful execute, as in `cw_multi_test::AppResponse`
(the `data` payload is not needed by any claim and is omitted). -/
structure AppResponse where
  events : List Event
deriving DecidableEq, Repr

/-- A parsed coin: denom plus numeric amount (`cosmwasm_std::Coin`). -/
structure Coin where
  denom : String
  amount : Nat
deriving DecidableEq, Repr

/-- A protobuf coin whose amount is still a decimal string
(`osmosis_std`/`coreum_wasm_sdk` `Coin`). -/
structure ProtoCoin where
  denom : String
  amount : String
deriving DecidableEq, Repr

/-! ### Keyed record store

`cw_storage_plus::Map` point reads and writes, modelled as an association
list: `lookupKV` is `may_load`, `insertKV` is `save` (overwrite), and
`removeKV` is `remove`. -/

def lookupKV {κ β : Type} [DecidableEq κ] : List (κ × β) → κ → Option β
  | [], _ => none
  | (k', v) :: rest, k => if k' = k then some v else lookupKV rest k

def insertKV {κ β : Type} [DecidableEq κ] : List (κ × β) → κ → β → List (κ × β)
  | [], k, v => [(k, v)]
  | (k', v') :: rest, k, v =>
    if k' = k then (k, v) :: rest else (k', v') :: insertKV rest k v

/-! ### Bank subsystem

Modelled from the spec: the Bank Subsystem is an external collaborator
(the host ledger engine of `cw_multi_test`) holding account balances per
denom and exposing burn, privileged-mint, balance query and supply query,
all by denom string (spec section 6).  Balances are keyed by
(address, denom); the supply of a denom is the sum of all balances of that
denom; privileged mint credits the given address unconditionally; burn
fails (the "Cannot Sub" error class) when the account balance is too small.
-/

/-- Bank state: (address, denom) keyed balances. -/
abbrev Bank := List ((String × String) × Nat)

def Bank.balanceOf (b : Bank) (addr denom : String) : Nat :=
  (lookupKV b (addr, denom)).getD 0

def Bank.supplyOf (b : Bank) (denom : String) : Nat :=
  ((b.filter (fun e => e.1.2 = denom)).map (fun e => e.2)).sum

/-- Privileged mint (`BankSudo::Mint`): credit `toAddr` with `amt` of `denom`. -/
def Bank.mint (b : Bank) (toAddr denom : String) (amt : Nat) : Bank :=
  insertKV b (toAddr, denom) (b.balanceOf toAddr denom + amt)

/-- Burn (`BankMsg::Burn` executed as `fro`): fails when the balance is
insufficient, mirroring the bank module's "Cannot Sub" overflow error. -/
def Bank.burn (b : Bank) (fro denom : String) (amt : Nat) : Option Bank :=
  if amt ≤ b.balanceOf fro denom then
    some (insertKV b (fro, denom) (b.balanceOf fro denom - amt))
  else none

/-! ### Decimal parsing (`u128::from_str` / `Uint128::from_str`) -/

def digitVal (c : Char) : Nat := c.toNat - 48

def natOfDigits (l : List Char) : Nat :=
  l.foldl (fun a c => a * 10 + digitVal c) 0

/-- Parse a decimal `u128`, as Rust's `from_str`: an optional leading `+`,
then one or more digits, value below `2 ^ 128` (a leading `-` leaves a
non-digit in place and is rejected by the digit test). -/
def parseU128 (s : String) : Option Nat :=
  let l := s.toList
  let t := if l.head? = some '+' then l.tail else l
  if t ≠ [] ∧ t.all Char.isDigit then
    if natOfDigits t < 2 ^ 128 then some (natOfDigits t) else none
  else none

/-! ### String splitting (Rust `str::split(char)`) -/

/-- Split on every occurrence of `sep`; never returns `[]` (an empty input
yields `[[]]`), exactly like Rust's `split` and `String.splitOn`. -/
def splitOnChar (sep : Char) : List Char → List (List Char)
  | [] => [[]]
  | c :: cs =>
    if c = sep then [] :: splitOnChar sep cs
    else
      match splitOnChar sep cs with
      | [] => [[c]]
      | p :: ps => (c :: p) :: ps

/-- Denom parts, as `denom.split(sep).collect::<Vec<_>>()` but as strings. -/
def denomParts (sep : Char) (denom : String) : List String :=
  (splitOnChar sep denom.toList).map (fun l => String.mk l)

/-! ### The anchored regexes of `coin_from_sdk_string`

Each Rust regex is anchored (`^...$`) and built from character classes
that make its decomposition unique, so each one is modelled by a direct
Boolean decision procedure on the character list. -/

/-- Uppercase hex digit class `[0-9A-F]`. -/
def isHexUpper (c : Char) : Bool := c.isDigit || ('A' ≤ c && c ≤ 'F')

/-- Character class `[a-z0-9]`. -/
def isLowerOrDigit (c : Char) : Bool := c.isLower || c.isDigit

/-- Regex `^[0-9]+[a-z]+$` (amount followed by a plain lowercase denom). -/
def denomReMatch (s : String) : Bool :=
  let l := s.toList
  let ds := l.takeWhile Char.isDigit
  let rest := l.dropWhile Char.isDigit
  !ds.isEmpty && !rest.isEmpty && rest.all Char.isLower

/-- Regex `^([0-9]+)([a-z0-9]+)-([A-Za-z0-9]+)$` (amount followed by a
Coreum `subunit-issuer` denom); only in the Coreum variant. -/
def denomRe2Match (s : String) : Bool :=
  match splitOnChar '-' s.toList with
  | [pre, post] =>
    decide (2 ≤ pre.length) &&
      (match pre with
       | c :: _ => c.isDigit
       | [] => false) &&
      pre.all isLowerOrDigit &&
      !post.isEmpty && post.all Char.isAlphanum
  | _ => false

/-- Regex `^[0-9]+(ibc|IBC)/[0-9A-F]{64}$` (amount followed by an
IBC-style denom). -/
def ibcReMatch (s : String) : Bool :=
  let l := s.toList
  let ds := l.takeWhile Char.isDigit
  let rest := l.dropWhile Char.isDigit
  !ds.isEmpty &&
    (match rest with
     | 'i' :: 'b' :: 'c' :: '/' :: hex => decide (hex.length = 64) && hex.all isHexUpper
     | 'I' :: 'B' :: 'C' :: '/' :: hex => decide (hex.length = 64) && hex.all isHexUpper
     | _ => false)

/-- Regex `^[0-9]+factory/[0-9a-z]+/[0-9a-zA-Z]+$` (amount followed by a
factory-style denom). -/
def factoryReMatch (s : String) : Bool :=
  let l := s.toList
  let ds := l.takeWhile Char.isDigit
  let rest := l.dropWhile Char.isDigit
  !ds.isEmpty &&
    (match rest with
     | 'f' :: 'a' :: 'c' :: 't' :: 'o' :: 'r' :: 'y' :: '/' :: t =>
       (match splitOnChar '/' t with
        | [creator, sub] =>
          !creator.isEmpty && creator.all isLowerOrDigit &&
            !sub.isEmpty && sub.all Char.isAlphanum
        | _ => false)
     | _ => false)

/-- Leftmost maximal digit run, as `Regex::new("[0-9]+").find(s)`;
`none` when the string has no digit. -/
def firstDigitRun (s : String) : Option (List Char) :=
  let run := (s.toList.dropWhile (fun c => !c.isDigit)).takeWhile Char.isDigit
  if run.isEmpty then none else some run

/-- Drop the first `n` characters (Rust byte slicing `&s[n..]`; the
strings sliced here are ASCII so characters and bytes coincide). -/
def dropChars (s : String) (n : Nat) : String :=
  String.mk (s.toList.drop n)

/-- The gate of `coin_from_sdk_string` (Coreum variant): one of the four
anchored shapes must match. -/
def shapeOk (s : String) : Bool :=
  denomReMatch s || denomRe2Match s || ibcReMatch s || factoryReMatch s

/-- The Coreum variant of `coin_from_sdk_string`
(`token_factory_coreum.rs`): accept one of the four anchored shapes, take
the first digit run as the amount (the `unwrap` on the find is a panic
when no digit exists, which the shape gate makes unreachable), and take
the rest of the string *after the decimal rendering of the parsed amount*
as the denom. -/
def coin_from_sdk_string (s : String) : ExecResult Coin :=
  if !shapeOk s then
    .err "Invalid sdk string"
  else
    match firstDigitRun s with
    | none => .crash "called Option::unwrap() on a None value"
    | some run =>
      match parseU128 (String.mk run) with
      | none => .err "number too large to fit in target type"
      | some a => .ok { denom := dropChars s (toString a).length, amount := a }

/-! ### Token factory configuration (shared by both variants) -/

/-- The `TokenFactory` struct fields (the module prefix field is named
`module_denom_prefix` in the source). -/
structure TFConfig where
  moduleDenomPref : String
  max_subdenom_len : Nat
  max_hrp_len : Nat
  max_creator_len : Nat
  denom_creation_fee : String
deriving DecidableEq, Repr

/-! ### Messages -/

/-- Osmosis `MsgMint` (generic variant). -/
structure MsgMintOsmo where
  sender : String
  amount : Option ProtoCoin
  mint_to_address : String
deriving DecidableEq, Repr

/-- Osmosis `MsgBurn` (generic variant). -/
structure MsgBurnOsmo where
  sender : String
  amount : Option ProtoCoin
  burn_from_address : String
deriving DecidableEq, Repr

/-- Coreum `coreum.asset.ft.v1.MsgIssue` (the fields the module reads;
`initial_amount` stays a decimal string as in the protobuf). -/
structure MsgIssue where
  issuer : String
  symbol : String
  subunit : String
  precision : Nat
  initial_amount : String
  description : String
deriving DecidableEq, Repr

/-- Coreum `coreum.asset.ft.v1.MsgMint`. -/
structure MsgMintCoreum where
  sender : String
  coin : Option ProtoCoin
  recipient : String
deriving DecidableEq, Repr

/-- Coreum `coreum.asset.ft.v1.MsgBurn`. -/
structure MsgBurnCoreum where
  sender : String
  coin : Option ProtoCoin
deriving DecidableEq, Repr

/-- Coreum `coreum.asset.nft.v1.MsgIssueClass` (fields the module reads). -/
structure MsgIssueClass where
  issuer : String
  name : String
  symbol : String
  description : String
  uri : String
  uri_hash : String
  features : List Int
deriving DecidableEq, Repr

/-- `cosmos.nft.v1beta1.MsgSend` (Coreum NFT transfer). -/
structure MsgNftSend where
  sender : String
  class_id : String
  id : String
  receiver : String
deriving DecidableEq, Repr

/-- The stored NFT representation (`StoredNft` in the source; the opaque
`data` blob is a byte list). -/
structure StoredNft where
  class_id : String
  id : String
  owner : String
  uri : String
  data : Option (List Nat)
deriving DecidableEq, Repr

/-- Coreum NFT class feature discriminants
(proto `coreum.asset.nft.v1.ClassFeature`). -/
def ClassFeature.burning : Int := 0

def ClassFeature.soulbound : Int := 4

/-! ### Module states -/

/-- State touched by the generic token factory: only the bank (the generic
variant keeps no record store of its own). -/
structure GenState where
  bank : Bank
deriving DecidableEq, Repr

/-- State touched by the Coreum token factory: the three persisted record
stores (`ISSUED_TOKENS`, `ISSUED_NFT_CLASSES`, `MINTED_NFTS`) plus the
bank. -/
structure CoreumState where
  issuedTokens : List (String × MsgIssue)
  issuedNftClasses : List (String × MsgIssueClass)
  mintedNfts : List ((String × String) × StoredNft)
  bank : Bank
deriving DecidableEq, Repr

/-- Regex `^[a-zA-Z][a-zA-Z0-9/:._-]{2,127}$` validating Coreum subunit
and symbol. -/
def coreumSymbolRe (s : String) : Bool :=
  match s.toList with
  | c :: rest =>
    c.isAlpha && decide (2 ≤ rest.length) && decide (rest.length ≤ 127) &&
      rest.all (fun c => c.isAlphanum || c = '/' || c = ':' || c = '.' || c = '_' || c = '-')
  | [] => false

/-! ### Coreum token factory — fungible token path
(`token_factory_coreum.rs`) -/

namespace CoreumTF

/-- `TokenFactory::issue_to_denom`: the Coreum FT denom of an issuance,
`subunit-issuer`. -/
def issue_to_denom (msg : MsgIssue) : String :=
  msg.subunit ++ "-" ++ msg.issuer

/-- The issuance event pushed by `issue`. -/
def issuedEvent (denom issuer : String) : Event :=
  { ty := "/coreum.asset.ft.v1.EventIssued"
    attributes := [("denom", denom), ("issuer", issuer)] }

/-- Coreum `TokenFactory::issue`.  Field validations first; then the
`ISSUED_TOKENS.save` (the record write happens *before* the supply check
and the fee burn, exactly as in the source); then the supply check, the
fee burn, and the optional initial mint. -/
def issue (cfg : TFConfig) (msg : MsgIssue) (sender : String) (st : CoreumState) :
    CoreumState × ExecResult AppResponse :=
  if cfg.max_subdenom_len < msg.subunit.length then
    (st, .err ("Subdenom length is too long, max length is " ++ toString cfg.max_subdenom_len))
  else if cfg.max_creator_len < msg.issuer.length then
    (st, .err ("Creator length is too long, max length is " ++ toString cfg.max_creator_len))
  else if msg.issuer.toList.contains '/' then
    (st, .err "Invalid creator address, creator address cannot contains \x27/\x27")
  else if msg.issuer ≠ sender then
    (st, .err "Invalid creator address, creator address must be the same as the sender")
  else if !coreumSymbolRe msg.subunit then
    (st, .err "subunit must match regex format \x27^[a-zA-Z][a-zA-Z0-9/:._-]\x7b2,127\x7d$\x27: invalid input")
  else if !coreumSymbolRe msg.symbol then
    (st, .err "symbol must match regex format \x27^[a-zA-Z][a-zA-Z0-9/:._-]\x7b2,127\x7d$\x27: invalid input")
  else
    let denom := issue_to_denom msg
    let st1 := { st with issuedTokens := insertKV st.issuedTokens denom msg }
    if st1.bank.supplyOf denom ≠ 0 then (st1, .err "Subdenom already exists")
    else
      match coin_from_sdk_string cfg.denom_creation_fee with
      | .err e => (st1, .err e)
      | .crash e => (st1, .crash e)
      | .ok fee =>
        match st1.bank.burn sender fee.denom fee.amount with
        | none => (st1, .err "Cannot Sub")
        | some bank2 =>
          let st2 := { st1 with bank := bank2 }
          if msg.initial_amount ≠ "" then
            match parseU128 msg.initial_amount with
            | none =>
              (st2, .err ("invalid initial_amount `" ++ msg.initial_amount ++ "`"))
            | some n =>
              if 0 < n then
                ({ st2 with bank := st2.bank.mint msg.issuer denom n },
                 .ok { events := [issuedEvent denom msg.issuer] })
              else (st2, .ok { events := [issuedEvent denom msg.issuer] })
          else (st2, .ok { events := [issuedEvent denom msg.issuer] })

/-- Coreum `TokenFactory::mint`.  Note that the bank mint is performed
with the *raw* `msg.recipient`, while the event carries the defaulted
recipient, exactly as in the source. -/
def mint (msg : MsgMintCoreum) (sender : String) (st : CoreumState) :
    CoreumState × ExecResult AppResponse :=
  match msg.coin with
  | none => (st, .err "MsgMint.coin is None")
  | some coin =>
    let denom := coin.denom
    let parts := denomParts '-' denom
    if parts.length ≠ 2 then (st, .err "Invalid denom")
    else
      match parts.get? 1 with
      | none => (st, .crash "index out of bounds")
      | some p1 =>
        if p1 ≠ sender then (st, .err "Unauthorized mint. Not the issuer of the denom.")
        else if sender ≠ msg.sender then
          (st, .err "Invalid sender. Sender in msg must be same as sender of transaction.")
        else if (lookupKV st.issuedTokens denom).isNone then
          (st, .err ("MsgMint for unknown Coreum FT denom `" ++ denom ++ "`"))
        else
          match parseU128 coin.amount with
          | none => (st, .err "invalid Uint128")
          | some amount =>
            if amount = 0 then (st, .err "Invalid zero amount")
            else
              let recipient := if msg.recipient = "" then msg.sender else msg.recipient
              ({ st with bank := st.bank.mint msg.recipient denom amount },
               .ok { events := [{ ty := "tf_mint"
                                  attributes := [("sender", msg.sender),
                                                 ("recipient", recipient),
                                                 ("denom", denom),
                                                 ("amount", toString amount)] }] })

/-- Coreum `TokenFactory::burn`. -/
def burn (msg : MsgBurnCoreum) (sender : String) (st : CoreumState) :
    CoreumState × ExecResult AppResponse :=
  match msg.coin with
  | none => (st, .err "MsgBurn.coin is None")
  | some coin =>
    let denom := coin.denom
    let parts := denomParts '-' denom
    if parts.length ≠ 2 then (st, .err "Invalid denom")
    else
      match parts.get? 1 with
      | none => (st, .crash "index out of bounds")
      | some p1 =>
        if p1 ≠ sender then (st, .err "Unauthorized burn. Not the issuer of the denom.")
        else if sender ≠ msg.sender then
          (st, .err "Invalid sender. Sender in msg must be same as sender of transaction.")
        else if (lookupKV st.issuedTokens denom).isNone then
          (st, .err ("MsgBurn for unknown Coreum FT denom `" ++ denom ++ "`"))
        else
          match parseU128 coin.amount with
          | none => (st, .err "invalid Uint128")
          | some amount =>
            if amount = 0 then (st, .err "Invalid zero amount")
            else
              match st.bank.burn sender denom amount with
              | none => (st, .err "Cannot Sub")
              | some bank2 =>
                ({ st with bank := bank2 },
                 .ok { events := [{ ty := "tf_burn"
                                    attributes := [("burn_from_address", sender),
                                                   ("amount", toString amount)] }] })

/-- Coreum `TokenFactory::nft_send` (`cosmos.nft.v1beta1.MsgSend`).
The soulbound feature widens both sender checks with a custodial override
for the class issuer; a plain transfer requires the tx sender to be the
declared sender and the current owner. -/
def nft_send (msg : MsgNftSend) (sender : String) (st : CoreumState) :
    CoreumState × ExecResult AppResponse :=
  let class_id := msg.class_id
  let nft_id := msg.id
  match lookupKV st.issuedNftClasses class_id with
  | none => (st, .err ("Class id not found: " ++ class_id))
  | some cls =>
    match lookupKV st.mintedNfts (class_id, nft_id) with
    | none => (st, .err ("NFT not found: " ++ class_id ++ "/" ++ nft_id))
    | some stored =>
      let is_soulbound := cls.features.contains ClassFeature.soulbound
      if msg.sender ≠ sender ∧ ¬(is_soulbound = true ∧ cls.issuer = sender) then
        (st, .err "Invalid sender. sender in msg must match tx sender.")
      else if stored.owner ≠ sender ∧ ¬(is_soulbound = true ∧ cls.issuer = sender) then
        (st, .err ("Unauthorized send. Only owner can send " ++ class_id ++ "/" ++ nft_id))
      else if msg.receiver = "" then (st, .err "MsgSend.receiver is empty")
      else
        ({ st with mintedNfts :=
             insertKV st.mintedNfts (class_id, nft_id) { stored with owner := msg.receiver } },
         .ok { events := [{ ty := "/coreum.asset.nft.v1.EventSent"
                            attributes := [("class_id", class_id), ("id", nft_id),
                                           ("sender", msg.sender), ("receiver", msg.receiver)] }] })

end CoreumTF

/-! ### Coreum custom query module (`CoreumQueryModule::query`):
the NFT owner lookup and the NFT listing with optional class/owner
filters. -/

/-- The wasm-side view of a stored NFT (`coreum_wasm_sdk::nft::NFT`). -/
structure NftView where
  class_id : String
  id : String
  uri : Option String
  data : Option (List Nat)
deriving DecidableEq, Repr

namespace CoreumQueryModule

/-- Map a stored NFT to its query view, as the module builds it. -/
def storedToView (stored : StoredNft) : NftView :=
  { class_id := stored.class_id
    id := stored.id
    uri := if stored.uri = "" then none else some stored.uri
    data := stored.data }

/-- `CoreumQueries::NFT(nft::Query::Owner)`: fails when the token is not
live, otherwise returns the stored owner. -/
def queryOwner (st : CoreumState) (class_id id : String) : ExecResult String :=
  match lookupKV st.mintedNfts (class_id, id) with
  | none => .err ("NFT not found for " ++ class_id ++ "/" ++ id)
  | some stored => .ok stored.owner

/-- `CoreumQueries::NFT(nft::Query::NFTs)`: linear scan of the minted
records with early skip on the optional class filter (matched against the
record key) and owner filter (matched against the stored owner). -/
def queryNFTs (st : CoreumState) (classFilter ownerFilter : Option String) : List NftView :=
  (st.mintedNfts.filter (fun e =>
      (match classFilter with
       | some c => decide (e.1.1 = c)
       | none => true) &&
      (match ownerFilter with
       | some o => decide (e.2.owner = o)
       | none => true))).map (fun e => storedToView e.2)

end CoreumQueryModule

/-! ### Generic token factory (`token_factory.rs`): mint and burn -/

namespace GenTF

/-- Generic `TokenFactory::mint`.  The denom guard is the source's
`parts.len() != 3 && parts[0] != prefix` conjunction; the subsequent
unchecked `parts[1]` index is a Rust panic when the split has a single
part, which the guard does not exclude when that part equals the
prefix. -/
def mint (cfg : TFConfig) (msg : MsgMintOsmo) (sender : String) (st : GenState) :
    GenState × ExecResult AppResponse :=
  match msg.amount with
  | none => (st, .err "missing amount")
  | some coin =>
    let denom := coin.denom
    let parts := denomParts '/' denom
    if parts.length ≠ 3 ∧ parts.getD 0 "" ≠ cfg.moduleDenomPref then
      (st, .err "Invalid denom")
    else
      match parts.get? 1 with
      | none => (st, .crash "index out of bounds: the len is 1 but the index is 1")
      | some p1 =>
        if p1 ≠ sender then (st, .err "Unauthorized mint. Not the creator of the denom.")
        else if sender ≠ msg.sender then
          (st, .err "Invalid sender. Sender in msg must be same as sender of transaction.")
        else
          match parseU128 coin.amount with
          | none => (st, .err "invalid Uint128")
          | some amount =>
            if amount = 0 then (st, .err "Invalid zero amount")
            else
              let recipient := if msg.mint_to_address = "" then msg.sender else msg.mint_to_address
              ({ st with bank := st.bank.mint recipient denom amount },
               .ok { events := [{ ty := "tf_mint"
                                  attributes := [("sender", msg.sender),
                                                 ("mint_to_address", msg.mint_to_address),
                                                 ("recipient", recipient),
                                                 ("denom", denom),
                                                 ("amount", toString amount)] }] })

/-- Generic `TokenFactory::burn`, with the same denom guard and unchecked
index as `mint`; the burn goes through the bank and fails on
insufficient balance. -/
def burn (cfg : TFConfig) (msg : MsgBurnOsmo) (sender : String) (st : GenState) :
    GenState × ExecResult AppResponse :=
  match msg.amount with
  | none => (st, .err "missing amount")
  | some coin =>
    let denom := coin.denom
    let parts := denomParts '/' denom
    if parts.length ≠ 3 ∧ parts.getD 0 "" ≠ cfg.moduleDenomPref then
      (st, .err "Invalid denom")
    else
      match parts.get? 1 with
      | none => (st, .crash "index out of bounds: the len is 1 but the index is 1")
      | some p1 =>
        if p1 ≠ sender then (st, .err "Unauthorized burn. Not the creator of the denom.")
        else if sender ≠ msg.sender then
          (st, .err "Invalid sender. Sender in msg must be same as sender of transaction.")
        else
          match parseU128 coin.amount with
          | none => (st, .err "invalid Uint128")
          | some amount =>
            if amount = 0 then (st, .err "Invalid zero amount")
            else
              match st.bank.burn sender denom amount with
              | none => (st, .err "Cannot Sub")
              | some bank2 =>
                ({ st with bank := bank2 },
                 .ok { events := [{ ty := "tf_burn"
                                    attributes := [("burn_from_address", sender),
                                                   ("amount", toString amount)] }] })

end GenTF

/-! ### Unified query bridge (`unified_stargate.rs`)

The five well-known path constants are from `modules/mod.rs`.  The bodies
of the five recognized branches decode the protobuf request, call the host
ledger's native querier and re-encode the answer; the querier is an
external collaborator, so those branch bodies are abstracted as handler
functions carried in the environment.  The dispatch itself — the path
match and the extension fallback — is modelled exactly. -/

def QUERY_ALL_BALANCES_PATH : String := "/cosmos.bank.v1beta1.Query/AllBalances"

def QUERY_BALANCE_PATH : String := "/cosmos.bank.v1beta1.Query/Balance"

def QUERY_SUPPLY_PATH : String := "/cosmos.bank.v1beta1.Query/SupplyOf"

def QUERY_WASM_CONTRACT_SMART_PATH : String := "/cosmwasm.wasm.v1.Query/SmartContractState"

def QUERY_WASM_CONTRACT_INFO_PATH : String := "/cosmwasm.wasm.v1.Query/ContractInfo"

/-- A stargate query envelope: path plus raw binary payload (bytes). -/
structure StargateQueryReq where
  path : String
  data : List Nat
deriving DecidableEq, Repr

/-- Hex digit for the `Binary` debug rendering. -/
def hexDigit (n : Nat) : Char :=
  if n < 10 then Char.ofNat (48 + n) else Char.ofNat (87 + n)

/-- The `{:?}` rendering of a `cosmwasm_std::Binary`: the word `Binary`
around the lowercase-hex byte dump. -/
def renderBinary (data : List Nat) : String :=
  "Binary(" ++ String.join (data.map (fun b => String.mk [hexDigit (b / 16 % 16), hexDigit (b % 16)])) ++ ")"

namespace UnifiedStargate

/-- Environment of one query call: the five native-query translations
(external collaborator behaviour behind each recognized branch) and the
optional nested extension module. -/
structure Env where
  handleAllBalances : List Nat → ExecResult (List Nat)
  handleBalance : List Nat → ExecResult (List Nat)
  handleSupply : List Nat → ExecResult (List Nat)
  handleWasmSmart : List Nat → ExecResult (List Nat)
  handleWasmInfo : List Nat → ExecResult (List Nat)
  extra : Option (StargateQueryReq → ExecResult (List Nat))

/-- `UnifiedStargate::query`: match the path against the five well-known
constants in source order; on the wildcard arm, delegate the whole request
to the extension when one is configured, otherwise fail with the
"unexpected query" error naming the path and the raw payload. -/
def query (env : Env) (req : StargateQueryReq) : ExecResult (List Nat) :=
  if req.path = QUERY_ALL_BALANCES_PATH then env.handleAllBalances req.data
  else if req.path = QUERY_BALANCE_PATH then env.handleBalance req.data
  else if req.path = QUERY_SUPPLY_PATH then env.handleSupply req.data
  else if req.path = QUERY_WASM_CONTRACT_SMART_PATH then env.handleWasmSmart req.data
  else if req.path = QUERY_WASM_CONTRACT_INFO_PATH then env.handleWasmInfo req.data
  else
    match env.extra with
    | some f => f req
    | none =>
      .err ("Unexpected stargate query: path=" ++ req.path ++ ", data=" ++ renderBinary req.data)

end UnifiedStargate

/-! ## Store and bank lemmas -/

theorem lookupKV_insertKV {κ β : Type} [DecidableEq κ] (l : List (κ × β)) (k q : κ) (v : β) :
    lookupKV (insertKV l k v) q = if k = q then some v else lookupKV l q := by
  induction l with
  | nil => by_cases h : k = q <;> simp [insertKV, lookupKV, h]
  | cons e rest ih =>
    obtain ⟨k0, v0⟩ := e
    by_cases h0 : k0 = k
    · subst h0
      by_cases hq : k0 = q <;> simp [insertKV, lookupKV, hq]
    · by_cases hq : k0 = q
      · subst hq
        have hkq : ¬ k = k0 := fun h => h0 h.symm
        simp [insertKV, lookupKV, h0, hkq]
      · simp [insertKV, lookupKV, h0, hq, ih]

theorem mem_insertKV_self {κ β : Type} [DecidableEq κ] (l : List (κ × β)) (k : κ) (v : β) :
    (k, v) ∈ insertKV l k v := by
  induction l with
  | nil => simp [insertKV]
  | cons e rest ih =>
    obtain ⟨k0, v0⟩ := e
    by_cases h0 : k0 = k <;> simp [insertKV, h0, ih]

theorem mem_insertKV_elim {κ β : Type} [DecidableEq κ] {l : List (κ × β)} {k : κ} {v : β}
    (hnd : (l.map Prod.fst).Nodup) {e : κ × β} (he : e ∈ insertKV l k v) :
    e = (k, v) ∨ (e ∈ l ∧ e.1 ≠ k) := by
  induction l with
  | nil =>
    simp [insertKV] at he
    left
    exact he
  | cons e0 rest ih =>
    obtain ⟨k0, v0⟩ := e0
    simp only [List.map_cons, List.nodup_cons] at hnd
    by_cases h0 : k0 = k
    · subst h0
      have hrw : insertKV ((k0, v0) :: rest) k0 v = (k0, v) :: rest := by
        simp [insertKV]
      rw [hrw, List.mem_cons] at he
      rcases he with he | hmem
      · left; exact he
      · right
        refine ⟨List.mem_cons_of_mem _ hmem, fun hek => hnd.1 ?_⟩
        exact hek ▸ List.mem_map_of_mem Prod.fst hmem
    · have hrw : insertKV ((k0, v0) :: rest) k v = (k0, v0) :: insertKV rest k v := by
        simp [insertKV, h0]
      rw [hrw, List.mem_cons] at he
      rcases he with he | hmem
      · right
        refine ⟨he ▸ List.mem_cons_self _ _, ?_⟩
        rw [he]
        exact h0
      · rcases ih hnd.2 hmem with h | ⟨hm, hne⟩
        · left; exact h
        · right; exact ⟨List.mem_cons_of_mem _ hm, hne⟩

theorem lookupKV_mem {κ β : Type} [DecidableEq κ] {l : List (κ × β)} {k : κ} {v : β}
    (h : lookupKV l k = some v) : (k, v) ∈ l := by
  induction l with
  | nil => simp [lookupKV] at h
  | cons e rest ih =>
    obtain ⟨k0, v0⟩ := e
    by_cases h0 : k0 = k
    · subst h0
      simp [lookupKV] at h
      simp [h]
    · simp [lookupKV, h0] at h
      exact List.mem_cons_of_mem _ (ih h)

theorem Bank.balanceOf_insertKV (b : Bank) (k : String × String) (v : Nat) (a d : String) :
    Bank.balanceOf (insertKV b k v) a d = if k = (a, d) then v else b.balanceOf a d := by
  unfold Bank.balanceOf
  rw [lookupKV_insertKV]
  split <;> rfl

theorem Bank.balanceOf_cons (k : String × String) (n : Nat) (rest : Bank) (a d : String) :
    Bank.balanceOf ((k, n) :: rest) a d =
      if k = (a, d) then n else rest.balanceOf a d := by
  by_cases h : k = (a, d) <;> simp [Bank.balanceOf, lookupKV, h]

theorem Bank.supplyOf_cons (k : String × String) (n : Nat) (rest : Bank) (d : String) :
    Bank.supplyOf ((k, n) :: rest) d =
      (if k.2 = d then n else 0) + rest.supplyOf d := by
  unfold Bank.supplyOf
  rw [List.filter_cons]
  by_cases h : k.2 = d <;> simp [h]

theorem Bank.balanceOf_of_supplyOf_eq_zero {b : Bank} {d : String}
    (h : b.supplyOf d = 0) (a : String) : b.balanceOf a d = 0 := by
  induction b with
  | nil => rfl
  | cons e rest ih =>
    obtain ⟨⟨a0, d0⟩, n0⟩ := e
    rw [Bank.supplyOf_cons] at h
    rw [Bank.balanceOf_cons]
    have h1 : (if (a0, d0).2 = d then n0 else 0) = 0 := Nat.eq_zero_of_add_eq_zero_right h
    have h2 : Bank.supplyOf rest d = 0 := Nat.eq_zero_of_add_eq_zero_left h
    split
    · next heq =>
      injection heq with ha hd
      subst hd
      simpa using h1
    · exact ih h2

theorem Bank.balanceOf_mint_self (b : Bank) (a d : String) (n : Nat) :
    (b.mint a d n).balanceOf a d = b.balanceOf a d + n := by
  unfold Bank.mint
  rw [Bank.balanceOf_insertKV]
  simp

/-! ## Parsing lemmas for the denom-string helper -/

theorem takeWhile_ne_nil_head {l : List Char} {p : Char → Bool}
    (h : (l.takeWhile p).isEmpty = false) :
    ∃ c r, l = c :: r ∧ p c = true := by
  cases l with
  | nil => simp [List.takeWhile] at h
  | cons c r =>
    refine ⟨c, r, rfl, ?_⟩
    by_contra hc
    simp [List.takeWhile, Bool.eq_false_iff.mpr hc] at h

theorem splitOnChar_first {sep c : Char} {l pr : List Char} {p : List Char}
    {ps : List (List Char)}
    (h : splitOnChar sep l = p :: ps) (hp : p = c :: pr) : ∃ r, l = c :: r := by
  cases l with
  | nil =>
    rw [show splitOnChar sep ([] : List Char) = [[]] from rfl] at h
    have h0 : ([] : List Char) = p := (List.cons.inj h).1
    rw [← h0] at hp
    exact absurd hp (by simp)
  | cons a as =>
    by_cases ha : a = sep
    · rw [show splitOnChar sep (a :: as) = [] :: splitOnChar sep as by
        simp [splitOnChar, ha]] at h
      have h0 : ([] : List Char) = p := (List.cons.inj h).1
      rw [← h0] at hp
      exact absurd hp (by simp)
    · rcases hsp : splitOnChar sep as with _ | ⟨q, qs⟩
      · rw [show splitOnChar sep (a :: as) = [[a]] by simp [splitOnChar, ha, hsp]] at h
        have h0 : [a] = p := (List.cons.inj h).1
        rw [← h0] at hp
        have hac : a = c := (List.cons.inj hp).1
        exact ⟨as, by rw [← hac]⟩
      · rw [show splitOnChar sep (a :: as) = (a :: q) :: qs by simp [splitOnChar, ha, hsp]] at h
        have h0 : a :: q = p := (List.cons.inj h).1
        rw [← h0] at hp
        have hac : a = c := (List.cons.inj hp).1
        exact ⟨as, by rw [← hac]⟩

theorem shapeOk_head_digit {s : String} (h : shapeOk s = true) :
    ∃ c r, s.toList = c :: r ∧ c.isDigit = true := by
  unfold shapeOk at h
  simp only [Bool.or_eq_true] at h
  rcases h with ((h | h) | h) | h
  · unfold denomReMatch at h
    simp only [Bool.and_eq_true] at h
    exact takeWhile_ne_nil_head (by simpa using h.1.1)
  · unfold denomRe2Match at h
    rcases hsp : splitOnChar '-' s.toList with _ | ⟨pre, rest⟩
    · rw [hsp] at h; simp at h
    · rcases rest with _ | ⟨post, rest2⟩
      · rw [hsp] at h; simp at h
      · rcases rest2 with _ | _
        · rw [hsp] at h
          simp only [Bool.and_eq_true] at h
          rcases hpre : pre with _ | ⟨c, pr⟩
          · rw [hpre] at h
            simp at h
          · obtain ⟨r, hr⟩ := splitOnChar_first hsp hpre
            refine ⟨c, r, hr, ?_⟩
            have := h.1.1.1.2
            rw [hpre] at this
            simpa using this
        · rw [hsp] at h; simp at h
  · unfold ibcReMatch at h
    simp only [Bool.and_eq_true] at h
    exact takeWhile_ne_nil_head (by simpa using h.1)
  · unfold factoryReMatch at h
    simp only [Bool.and_eq_true] at h
    exact takeWhile_ne_nil_head (by simpa using h.1)

theorem firstDigitRun_of_head_digit {s : String} {c : Char} {r : List Char}
    (hl : s.toList = c :: r) (hc : c.isDigit = true) :
    firstDigitRun s = some (s.toList.takeWhile Char.isDigit) ∧
      s.toList.takeWhile Char.isDigit = c :: r.takeWhile Char.isDigit := by
  unfold firstDigitRun
  rw [hl]
  simp [List.dropWhile, List.takeWhile, hc]

theorem takeWhile_all_digit (l : List Char) :
    (l.takeWhile Char.isDigit).all Char.isDigit = true := by
  induction l with
  | nil => rfl
  | cons c r ih =>
    cases hc : c.isDigit <;> simp [List.takeWhile, hc, ih]

theorem parseU128_digit_list {c : Char} {r : List Char}
    (hc : c.isDigit = true) (hall : (c :: r).all Char.isDigit = true) :
    parseU128 (String.mk (c :: r)) =
      if natOfDigits (c :: r) < 2 ^ 128 then some (natOfDigits (c :: r)) else none := by
  unfold parseU128
  have hne : c ≠ '+' := by
    intro he
    rw [he] at hc
    exact absurd hc (by decide)
  simp [hne, hall]

/-! ## Claim theorems -/

/-- C10: for every unified-bridge query whose path is not one of the five
recognized well-known paths, the query is delegated unchanged to the
nested extension module when one is configured, and otherwise fails with
an "unexpected query" error whose message names both the path and the raw
payload. -/
theorem c10_unified_query_fallback (env : UnifiedStargate.Env) (req : StargateQueryReq)
    (h1 : req.path ≠ QUERY_ALL_BALANCES_PATH)
    (h2 : req.path ≠ QUERY_BALANCE_PATH)
    (h3 : req.path ≠ QUERY_SUPPLY_PATH)
    (h4 : req.path ≠ QUERY_WASM_CONTRACT_SMART_PATH)
    (h5 : req.path ≠ QUERY_WASM_CONTRACT_INFO_PATH) :
    (∀ f, env.extra = some f → UnifiedStargate.query env req = f req) ∧
      (env.extra = none →
        UnifiedStargate.query env req =
          .err ("Unexpected stargate query: path=" ++ req.path ++ ", data="
            ++ renderBinary req.data)) := by
  constructor
  · intro f hf
    simp [UnifiedStargate.query, h1, h2, h3, h4, h5, hf]
  · intro hf
    simp [UnifiedStargate.query, h1, h2, h3, h4, h5, hf]

/-- Witness for C10: with no extension configured, a query with an
unknown path fails with the message naming the path and the payload. -/
theorem c10_unified_query_fallback_witness :
    UnifiedStargate.query
        { handleAllBalances := fun _ => .err "unused", handleBalance := fun _ => .err "unused",
          handleSupply := fun _ => .err "unused", handleWasmSmart := fun _ => .err "unused",
          handleWasmInfo := fun _ => .err "unused", extra := none }
        { path := "/foo.Query/Bar", data := [1, 2] } =
      .err "Unexpected stargate query: path=/foo.Query/Bar, data=Binary(0102)" := by
  have h := (c10_unified_query_fallback
    { handleAllBalances := fun _ => .err "unused", handleBalance := fun _ => .err "unused",
      handleSupply := fun _ => .err "unused", handleWasmSmart := fun _ => .err "unused",
      handleWasmInfo := fun _ => .err "unused", extra := none }
    { path := "/foo.Query/Bar", data := [1, 2] }
    (by decide) (by decide) (by decide) (by decide) (by decide)).2 rfl
  rw [h]
  rfl

/-- C5: refuted — the generic mint and burn handlers are not total.  A
denom splitting into a single part equal to the module prefix passes the
source's `parts.len() != 3 && parts[0] != prefix` guard (the conjunction
is false because the first part equals the prefix), after which the
unchecked `parts[1]` index is an out-of-bounds panic rather than a scoped
error. -/
theorem c5_generic_mint_burn_panic :
    (GenTF.mint { moduleDenomPref := "factory", max_subdenom_len := 32, max_hrp_len := 16,
                  max_creator_len := 75, denom_creation_fee := "10000000uosmo" }
        { sender := "sender", amount := some { denom := "factory", amount := "5" },
          mint_to_address := "sender" } "sender" { bank := [] } =
      ({ bank := [] }, .crash "index out of bounds: the len is 1 but the index is 1")) ∧
    (GenTF.burn { moduleDenomPref := "factory", max_subdenom_len := 32, max_hrp_len := 16,
                  max_creator_len := 75, denom_creation_fee := "10000000uosmo" }
        { sender := "sender", amount := some { denom := "factory", amount := "5" },
          burn_from_address := "sender" } "sender" { bank := [] } =
      ({ bank := [] }, .crash "index out of bounds: the len is 1 but the index is 1")) := by
  exact ⟨rfl, rfl⟩

/-- C4: refuted by the code — a successful Coreum mint with an empty
recipient emits a `tf_mint` event whose recipient attribute is the
defaulted sender, but the bank credit goes to the raw empty `recipient`
string, not to the sender: the sender's balance stays zero while the
empty address holds the minted amount. -/
theorem c4_coreum_mint_empty_recipient_misdirected :
    (CoreumTF.mint { sender := "sender", coin := some { denom := "subdenom-sender", amount := "100" },
                     recipient := "" } "sender"
        { issuedTokens := [("subdenom-sender",
            { issuer := "sender", symbol := "SUB", subunit := "subdenom", precision := 6,
              initial_amount := "", description := "" })],
          issuedNftClasses := [], mintedNfts := [], bank := [] }).2 =
      .ok { events := [{ ty := "tf_mint",
                         attributes := [("sender", "sender"), ("recipient", "sender"),
                                        ("denom", "subdenom-sender"), ("amount", "100")] }] } ∧
    Bank.balanceOf
      (CoreumTF.mint { sender := "sender", coin := some { denom := "subdenom-sender", amount := "100" },
                       recipient := "" } "sender"
        { issuedTokens := [("subdenom-sender",
            { issuer := "sender", symbol := "SUB", subunit := "subdenom", precision := 6,
              initial_amount := "", description := "" })],
          issuedNftClasses := [], mintedNfts := [], bank := [] }).1.bank "" "subdenom-sender" = 100 ∧
    Bank.balanceOf
      (CoreumTF.mint { sender := "sender", coin := some { denom := "subdenom-sender", amount := "100" },
                       recipient := "" } "sender"
        { issuedTokens := [("subdenom-sender",
            { issuer := "sender", symbol := "SUB", subunit := "subdenom", precision := 6,
              initial_amount := "", description := "" })],
          issuedNftClasses := [], mintedNfts := [], bank := [] }).1.bank "sender" "subdenom-sender" = 0 := by
  exact ⟨rfl, rfl, rfl⟩

/-- C2 counterexample: the generic token factory mints a denom that was
never issued — there is no issuance-record check at all in that variant —
so the operation succeeds and forwards the mint to the bank, where the
claim requires a rejection. -/
theorem c2_generic_mint_unissued_accepted :
    GenTF.mint { moduleDenomPref := "factory", max_subdenom_len := 32, max_hrp_len := 16,
                 max_creator_len := 75, denom_creation_fee := "10000000uosmo" }
        { sender := "sender", amount := some { denom := "factory/sender/subdenom", amount := "1000" },
          mint_to_address := "sender" } "sender" { bank := [] } =
      ({ bank := [(("sender", "factory/sender/subdenom"), 1000)] },
       .ok { events := [{ ty := "tf_mint",
                          attributes := [("sender", "sender"), ("mint_to_address", "sender"),
                                         ("recipient", "sender"),
                                         ("denom", "factory/sender/subdenom"),
                                         ("amount", "1000")] }] }) := by
  rfl

/-- C2 amended: only the Coreum variant rejects minting of an unissued
denom — whenever a Coreum mint reaches the issuance-record lookup (coin
present, two-part denom whose issuer part equals the sender, declared
sender matching) and the denom has no issuance record, the operation
fails with the unknown-denom error, whatever the other fields and the
bank state are. -/
theorem c2_coreum_mint_unissued_rejected (msg : MsgMintCoreum) (sender : String)
    (st : CoreumState) (coin : ProtoCoin)
    (hc : msg.coin = some coin)
    (hparts : (denomParts '-' coin.denom).length = 2)
    (hp1 : (denomParts '-' coin.denom).get? 1 = some sender)
    (hs : msg.sender = sender)
    (hunk : lookupKV st.issuedTokens coin.denom = none) :
    CoreumTF.mint msg sender st =
      (st, .err ("MsgMint for unknown Coreum FT denom `" ++ coin.denom ++ "`")) := by
  simp only [CoreumTF.mint, hc]
  rw [if_neg (by simp [hparts])]
  simp only [hp1]
  rw [if_neg (by simp), if_neg (by simp [hs]), if_pos (by simp [hunk])]

/-- Witness for the amended C2: minting `subdenom-sender` as `sender`
without a prior issuance fails with the unknown-denom error. -/
theorem c2_coreum_mint_unissued_rejected_witness :
    CoreumTF.mint { sender := "sender", coin := some { denom := "subdenom-sender", amount := "1000" },
                    recipient := "sender" } "sender"
        { issuedTokens := [], issuedNftClasses := [], mintedNfts := [], bank := [] } =
      ({ issuedTokens := [], issuedNftClasses := [], mintedNfts := [], bank := [] },
       .err "MsgMint for unknown Coreum FT denom `subdenom-sender`") := by
  have h := c2_coreum_mint_unissued_rejected
    { sender := "sender", coin := some { denom := "subdenom-sender", amount := "1000" },
      recipient := "sender" } "sender"
    { issuedTokens := [], issuedNftClasses := [], mintedNfts := [], bank := [] }
    { denom := "subdenom-sender", amount := "1000" }
    rfl (by decide) (by decide) rfl rfl
  rw [h]
  rfl

/-- C1 counterexample: a Coreum issuance that fails at the supply check
("Subdenom already exists") nonetheless leaves the issuance record
written in `ISSUED_TOKENS` — the store the module passes on is changed by
the failed call, because the save happens before the supply check. -/
theorem c1_issue_record_written_despite_failure :
    (CoreumTF.issue { moduleDenomPref := "", max_subdenom_len := 32, max_hrp_len := 16,
                      max_creator_len := 75, denom_creation_fee := "10000000ucore" }
        { issuer := "sender", symbol := "SUB", subunit := "subdenom", precision := 6,
          initial_amount := "", description := "" } "sender"
        { issuedTokens := [], issuedNftClasses := [], mintedNfts := [],
          bank := [(("other", "subdenom-sender"), 5)] }).2 =
      .err "Subdenom already exists" ∧
    lookupKV
      (CoreumTF.issue { moduleDenomPref := "", max_subdenom_len := 32, max_hrp_len := 16,
                        max_creator_len := 75, denom_creation_fee := "10000000ucore" }
        { issuer := "sender", symbol := "SUB", subunit := "subdenom", precision := 6,
          initial_amount := "", description := "" } "sender"
        { issuedTokens := [], issuedNftClasses := [], mintedNfts := [],
          bank := [(("other", "subdenom-sender"), 5)] }).1.issuedTokens "subdenom-sender" =
      some { issuer := "sender", symbol := "SUB", subunit := "subdenom", precision := 6,
             initial_amount := "", description := "" } ∧
    lookupKV ([] : List (String × MsgIssue)) "subdenom-sender" = none := by
  exact ⟨rfl, rfl, rfl⟩

/-- C1 amended: in the Coreum issue handler the `ISSUED_TOKENS` save
happens after the field validations but *before* the supply check and the
fee burn; once the field validations pass, the store the module leaves
behind contains the issuance record whatever happens afterwards, so a
failure at the supply check or the fee burn does not leave the record
store unchanged — caller-visible atomicity relies on the surrounding
router's transaction rollback instead. -/
theorem c1_issue_record_saved_before_checks (cfg : TFConfig) (msg : MsgIssue)
    (sender : String) (st : CoreumState)
    (h1 : msg.subunit.length ≤ cfg.max_subdenom_len)
    (h2 : msg.issuer.length ≤ cfg.max_creator_len)
    (h3 : msg.issuer.toList.contains '/' = false)
    (h4 : msg.issuer = sender)
    (h5 : coreumSymbolRe msg.subunit = true)
    (h6 : coreumSymbolRe msg.symbol = true) :
    (CoreumTF.issue cfg msg sender st).1.issuedTokens =
      insertKV st.issuedTokens (CoreumTF.issue_to_denom msg) msg := by
  simp only [CoreumTF.issue]
  rw [if_neg (by omega), if_neg (by omega), if_neg (by rw [h3]; simp),
    if_neg (by simp [h4]), if_neg (by simp [h5]), if_neg (by simp [h6])]
  split
  · rfl
  · split
    · rfl
    · rfl
    · split
      · rfl
      · split
        · split
          · rfl
          · split <;> rfl
        · rfl

/-- Witness for the amended C1: a concrete issuance that fails at the
supply check still has the record in the resulting store. -/
theorem c1_issue_record_saved_before_checks_witness :
    (CoreumTF.issue { moduleDenomPref := "", max_subdenom_len := 32, max_hrp_len := 16,
                      max_creator_len := 75, denom_creation_fee := "10000000ucore" }
        { issuer := "sender", symbol := "SUB", subunit := "subdenom", precision := 6,
          initial_amount := "", description := "" } "sender"
        { issuedTokens := [], issuedNftClasses := [], mintedNfts := [],
          bank := [(("other", "subdenom-sender"), 5)] }).1.issuedTokens =
      [("subdenom-sender",
        { issuer := "sender", symbol := "SUB", subunit := "subdenom", precision := 6,
          initial_amount := "", description := "" })] := by
  have h := c1_issue_record_saved_before_checks
    { moduleDenomPref := "", max_subdenom_len := 32, max_hrp_len := 16,
      max_creator_len := 75, denom_creation_fee := "10000000ucore" }
    { issuer := "sender", symbol := "SUB", subunit := "subdenom", precision := 6,
      initial_amount := "", description := "" } "sender"
    { issuedTokens := [], issuedNftClasses := [], mintedNfts := [],
      bank := [(("other", "subdenom-sender"), 5)] }
    (by decide) (by decide) (by decide) rfl (by decide) (by decide)
  rw [h]
  rfl

/-- C6: in every variant, a mint or burn whose denom-derived issuer part
differs from the transaction sender fails with the authorization error,
whatever the values of the other message fields and the module state. -/
theorem c6_unauthorized_mint_burn (cfg : TFConfig) (sender : String)
    (m1 : MsgMintOsmo) (c1 : ProtoCoin) (st1 : GenState) (p1 : String)
    (m2 : MsgBurnOsmo) (c2 : ProtoCoin) (st2 : GenState) (p2 : String)
    (m3 : MsgMintCoreum) (c3 : ProtoCoin) (st3 : CoreumState) (p3 : String)
    (m4 : MsgBurnCoreum) (c4 : ProtoCoin) (st4 : CoreumState) (p4 : String)
    (h1a : m1.amount = some c1)
    (h1b : ¬((denomParts '/' c1.denom).length ≠ 3 ∧
             (denomParts '/' c1.denom).getD 0 "" ≠ cfg.moduleDenomPref))
    (h1c : (denomParts '/' c1.denom).get? 1 = some p1)
    (h1d : p1 ≠ sender)
    (h2a : m2.amount = some c2)
    (h2b : ¬((denomParts '/' c2.denom).length ≠ 3 ∧
             (denomParts '/' c2.denom).getD 0 "" ≠ cfg.moduleDenomPref))
    (h2c : (denomParts '/' c2.denom).get? 1 = some p2)
    (h2d : p2 ≠ sender)
    (h3a : m3.coin = some c3)
    (h3b : (denomParts '-' c3.denom).length = 2)
    (h3c : (denomParts '-' c3.denom).get? 1 = some p3)
    (h3d : p3 ≠ sender)
    (h4a : m4.coin = some c4)
    (h4b : (denomParts '-' c4.denom).length = 2)
    (h4c : (denomParts '-' c4.denom).get? 1 = some p4)
    (h4d : p4 ≠ sender) :
    (GenTF.mint cfg m1 sender st1).2 = .err "Unauthorized mint. Not the creator of the denom." ∧
    (GenTF.burn cfg m2 sender st2).2 = .err "Unauthorized burn. Not the creator of the denom." ∧
    (CoreumTF.mint m3 sender st3).2 = .err "Unauthorized mint. Not the issuer of the denom." ∧
    (CoreumTF.burn m4 sender st4).2 = .err "Unauthorized burn. Not the issuer of the denom." := by
  refine ⟨?_, ?_, ?_, ?_⟩
  · simp only [GenTF.mint, h1a]
    rw [if_neg h1b]
    simp only [h1c]
    rw [if_pos h1d]
  · simp only [GenTF.burn, h2a]
    rw [if_neg h2b]
    simp only [h2c]
    rw [if_pos h2d]
  · simp only [CoreumTF.mint, h3a]
    rw [if_neg (by simp [h3b])]
    simp only [h3c]
    rw [if_pos h3d]
  · simp only [CoreumTF.burn, h4a]
    rw [if_neg (by simp [h4b])]
    simp only [h4c]
    rw [if_pos h4d]

/-- Witness for C6: concrete unauthorized mint and burn requests in both
variants, rejected although every other field is well-formed. -/
theorem c6_unauthorized_mint_burn_witness :
    (GenTF.mint { moduleDenomPref := "factory", max_subdenom_len := 32, max_hrp_len := 16,
                  max_creator_len := 75, denom_creation_fee := "10000000uosmo" }
        { sender := "sender", amount := some { denom := "factory/creator/subdenom", amount := "1000" },
          mint_to_address := "sender" } "sender" { bank := [] }).2 =
      .err "Unauthorized mint. Not the creator of the denom." ∧
    (GenTF.burn { moduleDenomPref := "factory", max_subdenom_len := 32, max_hrp_len := 16,
                  max_creator_len := 75, denom_creation_fee := "10000000uosmo" }
        { sender := "sender", amount := some { denom := "factory/creator/subdenom", amount := "1000" },
          burn_from_address := "sender" } "sender" { bank := [] }).2 =
      .err "Unauthorized burn. Not the creator of the denom." ∧
    (CoreumTF.mint { sender := "sender", coin := some { denom := "subdenom-creator", amount := "1000" },
                     recipient := "sender" } "sender"
        { issuedTokens := [], issuedNftClasses := [], mintedNfts := [], bank := [] }).2 =
      .err "Unauthorized mint. Not the issuer of the denom." ∧
    (CoreumTF.burn { sender := "sender", coin := some { denom := "subdenom-creator", amount := "1000" } }
        "sender"
        { issuedTokens := [], issuedNftClasses := [], mintedNfts := [], bank := [] }).2 =
      .err "Unauthorized burn. Not the issuer of the denom." := by
  exact c6_unauthorized_mint_burn
    { moduleDenomPref := "factory", max_subdenom_len := 32, max_hrp_len := 16,
      max_creator_len := 75, denom_creation_fee := "10000000uosmo" } "sender"
    { sender := "sender", amount := some { denom := "factory/creator/subdenom", amount := "1000" },
      mint_to_address := "sender" } { denom := "factory/creator/subdenom", amount := "1000" }
    { bank := [] } "creator"
    { sender := "sender", amount := some { denom := "factory/creator/subdenom", amount := "1000" },
      burn_from_address := "sender" } { denom := "factory/creator/subdenom", amount := "1000" }
    { bank := [] } "creator"
    { sender := "sender", coin := some { denom := "subdenom-creator", amount := "1000" },
      recipient := "sender" } { denom := "subdenom-creator", amount := "1000" }
    { issuedTokens := [], issuedNftClasses := [], mintedNfts := [], bank := [] } "creator"
    { sender := "sender", coin := some { denom := "subdenom-creator", amount := "1000" } }
    { denom := "subdenom-creator", amount := "1000" }
    { issuedTokens := [], issuedNftClasses := [], mintedNfts := [], bank := [] } "creator"
    rfl (by decide) (by decide) (by decide)
    rfl (by decide) (by decide) (by decide)
    rfl (by decide) (by decide) (by decide)
    rfl (by decide) (by decide) (by decide)

/-- C3 counterexample: in a class declaring the soulbound feature, the
current owner (who is not the class issuer) successfully sends the token —
the soulbound branch only *adds* an issuer override, it does not restrict
the owner — where the claim requires every non-issuer sender to be
rejected. -/
theorem c3_soulbound_owner_send_accepted :
    (CoreumTF.nft_send { sender := "alice", class_id := "cls-issuer", id := "nft1", receiver := "bob" }
        "alice"
        { issuedTokens := [], issuedNftClasses := [("cls-issuer",
            { issuer := "issuer", name := "Class", symbol := "CLS", description := "",
              uri := "", uri_hash := "", features := [ClassFeature.soulbound] })],
          mintedNfts := [(("cls-issuer", "nft1"),
            { class_id := "cls-issuer", id := "nft1", owner := "alice", uri := "", data := none })],
          bank := [] }).2 =
      .ok { events := [{ ty := "/coreum.asset.nft.v1.EventSent",
                         attributes := [("class_id", "cls-issuer"), ("id", "nft1"),
                                        ("sender", "alice"), ("receiver", "bob")] }] } ∧
    lookupKV
      (CoreumTF.nft_send { sender := "alice", class_id := "cls-issuer", id := "nft1", receiver := "bob" }
        "alice"
        { issuedTokens := [], issuedNftClasses := [("cls-issuer",
            { issuer := "issuer", name := "Class", symbol := "CLS", description := "",
              uri := "", uri_hash := "", features := [ClassFeature.soulbound] })],
          mintedNfts := [(("cls-issuer", "nft1"),
            { class_id := "cls-issuer", id := "nft1", owner := "alice", uri := "", data := none })],
          bank := [] }).1.mintedNfts ("cls-issuer", "nft1") =
      some { class_id := "cls-issuer", id := "nft1", owner := "bob", uri := "", data := none } ∧
    "alice" ≠ "issuer" := by
  exact ⟨rfl, rfl, by decide⟩

/-- C3 amended: for a class declaring the soulbound feature, an NFT send
succeeds when the transaction sender is the current owner (with a
matching declared sender) or the class issuer (custodial override,
regardless of declared sender and owner); a sender that is neither owner
nor issuer is rejected as "Unauthorized send". -/
theorem c3_soulbound_send_policy (msg : MsgNftSend) (sender : String) (st : CoreumState)
    (cls : MsgIssueClass) (stored : StoredNft)
    (hcls : lookupKV st.issuedNftClasses msg.class_id = some cls)
    (hnft : lookupKV st.mintedNfts (msg.class_id, msg.id) = some stored)
    (hsb : cls.features.contains ClassFeature.soulbound = true) :
    (msg.sender = sender → sender ≠ cls.issuer → sender ≠ stored.owner →
      (CoreumTF.nft_send msg sender st).2 =
        .err ("Unauthorized send. Only owner can send " ++ msg.class_id ++ "/" ++ msg.id)) ∧
    (msg.sender = sender → stored.owner = sender → msg.receiver ≠ "" →
      CoreumTF.nft_send msg sender st =
        ({ st with mintedNfts :=
             insertKV st.mintedNfts (msg.class_id, msg.id) { stored with owner := msg.receiver } },
         .ok { events := [{ ty := "/coreum.asset.nft.v1.EventSent",
                            attributes := [("class_id", msg.class_id), ("id", msg.id),
                                           ("sender", msg.sender), ("receiver", msg.receiver)] }] })) ∧
    (cls.issuer = sender → msg.receiver ≠ "" →
      CoreumTF.nft_send msg sender st =
        ({ st with mintedNfts :=
             insertKV st.mintedNfts (msg.class_id, msg.id) { stored with owner := msg.receiver } },
         .ok { events := [{ ty := "/coreum.asset.nft.v1.EventSent",
                            attributes := [("class_id", msg.class_id), ("id", msg.id),
                                           ("sender", msg.sender), ("receiver", msg.receiver)] }] })) := by
  refine ⟨?_, ?_, ?_⟩
  · intro hms hni hno
    simp only [CoreumTF.nft_send, hcls, hnft]
    rw [if_neg (fun h => h.1 hms),
      if_pos (⟨fun h => hno h.symm, fun hx => hni hx.2.symm⟩ :
        stored.owner ≠ sender ∧
          ¬(cls.features.contains ClassFeature.soulbound = true ∧ cls.issuer = sender))]
  · intro hms how hrecv
    simp only [CoreumTF.nft_send, hcls, hnft]
    rw [if_neg (fun h => h.1 hms), if_neg (fun h => h.1 how), if_neg hrecv]
  · intro hiss hrecv
    simp only [CoreumTF.nft_send, hcls, hnft]
    rw [if_neg (fun h => h.2 ⟨hsb, hiss⟩), if_neg (fun h => h.2 ⟨hsb, hiss⟩), if_neg hrecv]

/-- Witness for the amended C3: a sender that is neither owner nor issuer
of a soulbound class is rejected with "Unauthorized send". -/
theorem c3_soulbound_send_policy_witness :
    (CoreumTF.nft_send { sender := "mallory", class_id := "cls-issuer", id := "nft1", receiver := "bob" }
        "mallory"
        { issuedTokens := [], issuedNftClasses := [("cls-issuer",
            { issuer := "issuer", name := "Class", symbol := "CLS", description := "",
              uri := "", uri_hash := "", features := [ClassFeature.soulbound] })],
          mintedNfts := [(("cls-issuer", "nft1"),
            { class_id := "cls-issuer", id := "nft1", owner := "alice", uri := "", data := none })],
          bank := [] }).2 =
      .err "Unauthorized send. Only owner can send cls-issuer/nft1" := by
  have h := (c3_soulbound_send_policy
    { sender := "mallory", class_id := "cls-issuer", id := "nft1", receiver := "bob" } "mallory"
    { issuedTokens := [], issuedNftClasses := [("cls-issuer",
        { issuer := "issuer", name := "Class", symbol := "CLS", description := "",
          uri := "", uri_hash := "", features := [ClassFeature.soulbound] })],
      mintedNfts := [(("cls-issuer", "nft1"),
        { class_id := "cls-issuer", id := "nft1", owner := "alice", uri := "", data := none })],
      bank := [] }
    { issuer := "issuer", name := "Class", symbol := "CLS", description := "",
      uri := "", uri_hash := "", features := [ClassFeature.soulbound] }
    { class_id := "cls-issuer", id := "nft1", owner := "alice", uri := "", data := none }
    rfl rfl rfl).1 rfl (by decide) (by decide)
  rw [h]
  rfl

/-- C7: for every successful Coreum issuance whose initial amount parses
to a positive N (success itself forces the prior supply of the new denom
to be zero), the issuer's bank balance of the new denom in the resulting
state is exactly N. -/
theorem c7_issue_initial_balance (cfg : TFConfig) (msg : MsgIssue) (sender : String)
    (st st' : CoreumState) (resp : AppResponse) (n : Nat)
    (hrun : CoreumTF.issue cfg msg sender st = (st', .ok resp))
    (hn : parseU128 msg.initial_amount = some n)
    (hpos : 0 < n) :
    Bank.balanceOf st'.bank msg.issuer (CoreumTF.issue_to_denom msg) = n := by
  simp only [CoreumTF.issue] at hrun
  split at hrun
  · simp at hrun
  split at hrun
  · simp at hrun
  split at hrun
  · simp at hrun
  split at hrun
  · simp at hrun
  split at hrun
  · simp at hrun
  split at hrun
  · simp at hrun
  split at hrun
  · simp at hrun
  next hsup =>
    split at hrun
    · simp at hrun
    · simp at hrun
    next fee hfee =>
      split at hrun
      · simp at hrun
      next bank2 hburn =>
        have hz : Bank.supplyOf st.bank (CoreumTF.issue_to_denom msg) = 0 :=
          not_ne_iff.mp hsup
        split at hrun
        case isFalse hempt =>
          rw [not_ne_iff.mp hempt] at hn
          exact Option.noConfusion ((show parseU128 "" = none from rfl) ▸ hn)
        case isTrue hne =>
          split at hrun
          · simp at hrun
          next n' hn' =>
            rw [hn] at hn'
            injection hn' with hnn
            subst hnn
            split at hrun
            case isFalse hnpos => omega
            case isTrue hpos' =>
              injection hrun with hst hresp
              subst hst
              dsimp only
              rw [Bank.balanceOf_mint_self]
              unfold Bank.burn at hburn
              split at hburn
              case isFalse => exact Option.noConfusion hburn
              case isTrue hle =>
                injection hburn with hb2
                subst hb2
                rw [Bank.balanceOf_insertKV]
                split
                case isTrue heq =>
                  injection heq with ha hd
                  rw [ha, hd,
                    Bank.balanceOf_of_supplyOf_eq_zero hz msg.issuer]
                  omega
                case isFalse hne2 =>
                  rw [Bank.balanceOf_of_supplyOf_eq_zero hz msg.issuer]
                  omega

/-- Witness for C7: a concrete successful issuance of `subdenom-sender`
with initial amount 1000 leaves the issuer holding exactly 1000. -/
theorem c7_issue_initial_balance_witness :
    Bank.balanceOf
      (CoreumTF.issue { moduleDenomPref := "", max_subdenom_len := 32, max_hrp_len := 16,
                        max_creator_len := 75, denom_creation_fee := "10000000ucore" }
        { issuer := "sender", symbol := "SUB", subunit := "subdenom", precision := 6,
          initial_amount := "1000", description := "" } "sender"
        { issuedTokens := [], issuedNftClasses := [], mintedNfts := [],
          bank := [(("sender", "ucore"), 10000000)] }).1.bank
      "sender" (CoreumTF.issue_to_denom
        { issuer := "sender", symbol := "SUB", subunit := "subdenom", precision := 6,
          initial_amount := "1000", description := "" }) = 1000 := by
  exact c7_issue_initial_balance
    { moduleDenomPref := "", max_subdenom_len := 32, max_hrp_len := 16,
      max_creator_len := 75, denom_creation_fee := "10000000ucore" }
    { issuer := "sender", symbol := "SUB", subunit := "subdenom", precision := 6,
      initial_amount := "1000", description := "" } "sender"
    { issuedTokens := [], issuedNftClasses := [], mintedNfts := [],
      bank := [(("sender", "ucore"), 10000000)] }
    { issuedTokens := [("subdenom-sender",
        { issuer := "sender", symbol := "SUB", subunit := "subdenom", precision := 6,
          initial_amount := "1000", description := "" })],
      issuedNftClasses := [], mintedNfts := [],
      bank := [(("sender", "ucore"), 0), (("sender", "subdenom-sender"), 1000)] }
    { events := [{ ty := "/coreum.asset.ft.v1.EventIssued",
                   attributes := [("denom", "subdenom-sender"), ("issuer", "sender")] }] }
    1000 (by decide) (by decide) (by decide)

/-- C8: after a successful NFT send of a live (class, token) owned by A
to a different receiver B, the owner query returns B, the listing
filtered by owner=B includes the token, and the listing filtered by
owner=A no longer includes it.  The store well-formedness hypotheses
(unique keys; stored fields matching the key) are the invariants the mint
handler establishes for every live record. -/
theorem c8_nft_send_ownership (msg : MsgNftSend) (sender : String)
    (st st' : CoreumState) (resp : AppResponse) (stored : StoredNft)
    (hkeys : (st.mintedNfts.map Prod.fst).Nodup)
    (hwf : ∀ e ∈ st.mintedNfts, e.2.class_id = e.1.1 ∧ e.2.id = e.1.2)
    (hnft : lookupKV st.mintedNfts (msg.class_id, msg.id) = some stored)
    (hAB : stored.owner ≠ msg.receiver)
    (hsend : CoreumTF.nft_send msg sender st = (st', .ok resp)) :
    CoreumQueryModule.queryOwner st' msg.class_id msg.id = .ok msg.receiver ∧
    (∃ v ∈ CoreumQueryModule.queryNFTs st' none (some msg.receiver),
       v.class_id = msg.class_id ∧ v.id = msg.id) ∧
    (∀ v ∈ CoreumQueryModule.queryNFTs st' none (some stored.owner),
       ¬(v.class_id = msg.class_id ∧ v.id = msg.id)) := by
  have hmem0 := lookupKV_mem hnft
  have hwf0 := hwf _ hmem0
  simp only [CoreumTF.nft_send, hnft] at hsend
  split at hsend
  · simp at hsend
  next cls hcls =>
    split at hsend
    · simp at hsend
    split at hsend
    · simp at hsend
    split at hsend
    · simp at hsend
    injection hsend with hst hresp
    subst hst
    refine ⟨?_, ?_, ?_⟩
    · simp [CoreumQueryModule.queryOwner, lookupKV_insertKV]
    · refine ⟨CoreumQueryModule.storedToView { stored with owner := msg.receiver }, ?_, ?_, ?_⟩
      · simp only [CoreumQueryModule.queryNFTs, List.mem_map]
        refine ⟨((msg.class_id, msg.id), { stored with owner := msg.receiver }), ?_, rfl⟩
        rw [List.mem_filter]
        exact ⟨mem_insertKV_self _ _ _, by simp⟩
      · simpa [CoreumQueryModule.storedToView] using hwf0.1
      · simpa [CoreumQueryModule.storedToView] using hwf0.2
    · intro v hv
      simp only [CoreumQueryModule.queryNFTs, List.mem_map] at hv
      obtain ⟨e, hef, hve⟩ := hv
      rw [List.mem_filter] at hef
      obtain ⟨hemem, hpred⟩ := hef
      rcases mem_insertKV_elim hkeys hemem with heq | ⟨hmem, hne⟩
      · subst heq
        simp at hpred
        exact (hAB hpred.symm).elim
      · intro hvct
        have hview : (CoreumQueryModule.storedToView e.2).class_id = e.2.class_id := rfl
        have hview2 : (CoreumQueryModule.storedToView e.2).id = e.2.id := rfl
        have h1 : e.1.1 = msg.class_id := by
          rw [← (hwf e hmem).1, ← hview, hve]
          exact hvct.1
        have h2 : e.1.2 = msg.id := by
          rw [← (hwf e hmem).2, ← hview2, hve]
          exact hvct.2
        exact hne (Prod.ext_iff.mpr ⟨h1, h2⟩)

/-- Witness for C8: a concrete send of `nft1` from alice to bob, after
which the owner query answers bob, bob's listing contains the token and
alice's listing does not. -/
theorem c8_nft_send_ownership_witness :
    CoreumQueryModule.queryOwner
      { issuedTokens := [], issuedNftClasses := [("cls-alice",
          { issuer := "alice", name := "Class", symbol := "CLS", description := "",
            uri := "", uri_hash := "", features := [] })],
        mintedNfts := [(("cls-alice", "nft1"),
          { class_id := "cls-alice", id := "nft1", owner := "bob", uri := "", data := none })],
        bank := [] } "cls-alice" "nft1" = .ok "bob" ∧
    (∃ v ∈ CoreumQueryModule.queryNFTs
        { issuedTokens := [], issuedNftClasses := [("cls-alice",
            { issuer := "alice", name := "Class", symbol := "CLS", description := "",
              uri := "", uri_hash := "", features := [] })],
          mintedNfts := [(("cls-alice", "nft1"),
            { class_id := "cls-alice", id := "nft1", owner := "bob", uri := "", data := none })],
          bank := [] } none (some "bob"),
       v.class_id = "cls-alice" ∧ v.id = "nft1") ∧
    (∀ v ∈ CoreumQueryModule.queryNFTs
        { issuedTokens := [], issuedNftClasses := [("cls-alice",
            { issuer := "alice", name := "Class", symbol := "CLS", description := "",
              uri := "", uri_hash := "", features := [] })],
          mintedNfts := [(("cls-alice", "nft1"),
            { class_id := "cls-alice", id := "nft1", owner := "bob", uri := "", data := none })],
          bank := [] } none (some "alice"),
       ¬(v.class_id = "cls-alice" ∧ v.id = "nft1")) := by
  exact c8_nft_send_ownership
    { sender := "alice", class_id := "cls-alice", id := "nft1", receiver := "bob" } "alice"
    { issuedTokens := [], issuedNftClasses := [("cls-alice",
        { issuer := "alice", name := "Class", symbol := "CLS", description := "",
          uri := "", uri_hash := "", features := [] })],
      mintedNfts := [(("cls-alice", "nft1"),
        { class_id := "cls-alice", id := "nft1", owner := "alice", uri := "", data := none })],
      bank := [] }
    { issuedTokens := [], issuedNftClasses := [("cls-alice",
        { issuer := "alice", name := "Class", symbol := "CLS", description := "",
          uri := "", uri_hash := "", features := [] })],
      mintedNfts := [(("cls-alice", "nft1"),
        { class_id := "cls-alice", id := "nft1", owner := "bob", uri := "", data := none })],
      bank := [] }
    { events := [{ ty := "/coreum.asset.nft.v1.EventSent",
                   attributes := [("class_id", "cls-alice"), ("id", "nft1"),
                                  ("sender", "alice"), ("receiver", "bob")] }] }
    { class_id := "cls-alice", id := "nft1", owner := "alice", uri := "", data := none }
    (by decide) (by decide) (by decide) (by decide) (by decide)

/-- C9 counterexample: the accepted string "007abc" (plain-denom shape
with a zero-padded amount) parses to amount 7, but the denom component is
"07abc", not the remainder "abc" of the input after the leading digit run
— the helper slices off only as many characters as the canonical decimal
rendering of the parsed amount has. -/
theorem c9_leading_zero_misparse :
    coin_from_sdk_string "007abc" = .ok { denom := "07abc", amount := 7 } ∧
    String.mk (("007abc").toList.dropWhile Char.isDigit) = "abc" ∧
    "07abc" ≠ "abc" := by
  exact ⟨rfl, rfl, by decide⟩

/-- C9 amended: for every string accepted by the four-shape gate whose
leading digit run has value below `2 ^ 128`, the helper returns a coin
whose amount is the numeric value of the leading digit run and whose
denom is the remainder of the input after the canonical decimal rendering
of that amount (equal to the remainder after the digit run exactly when
the run carries no superfluous leading zero); an accepted string whose
digit run overflows 128 bits is rejected, and a string matching none of
the four shapes is rejected with "Invalid sdk string". -/
theorem c9_coin_from_sdk_string_spec (s : String) :
    (shapeOk s = true →
      natOfDigits (s.toList.takeWhile Char.isDigit) < 2 ^ 128 →
      coin_from_sdk_string s =
        .ok { denom := dropChars s
                (toString (natOfDigits (s.toList.takeWhile Char.isDigit))).length,
              amount := natOfDigits (s.toList.takeWhile Char.isDigit) }) ∧
    (shapeOk s = true →
      2 ^ 128 ≤ natOfDigits (s.toList.takeWhile Char.isDigit) →
      coin_from_sdk_string s = .err "number too large to fit in target type") ∧
    (shapeOk s = false → coin_from_sdk_string s = .err "Invalid sdk string") := by
  refine ⟨?_, ?_, ?_⟩
  · intro hs hlt
    obtain ⟨c, r, hl, hc⟩ := shapeOk_head_digit hs
    obtain ⟨hrun, hruneq⟩ := firstDigitRun_of_head_digit hl hc
    unfold coin_from_sdk_string
    rw [if_neg (by simp [hs])]
    rw [hruneq] at hrun ⊢
    rw [hrun]
    dsimp only
    have hall := takeWhile_all_digit s.toList
    rw [hruneq] at hall
    have hlt' : natOfDigits (c :: r.takeWhile Char.isDigit) < 2 ^ 128 := by
      rw [← hruneq]
      exact hlt
    rw [parseU128_digit_list hc hall, if_pos hlt']
  · intro hs hge
    obtain ⟨c, r, hl, hc⟩ := shapeOk_head_digit hs
    obtain ⟨hrun, hruneq⟩ := firstDigitRun_of_head_digit hl hc
    unfold coin_from_sdk_string
    rw [if_neg (by simp [hs])]
    rw [hruneq] at hrun
    rw [hrun]
    dsimp only
    have hall := takeWhile_all_digit s.toList
    rw [hruneq] at hall
    have hge' : ¬natOfDigits (c :: r.takeWhile Char.isDigit) < 2 ^ 128 := by
      rw [← hruneq]
      omega
    rw [parseU128_digit_list hc hall, if_neg hge']
  · intro hs
    unfold coin_from_sdk_string
    rw [if_pos (by simp [hs])]

/-- Witness for the amended C9: the native-denom fee string parses to
amount 1000 and denom "ucore". -/
theorem c9_coin_from_sdk_string_spec_witness :
    coin_from_sdk_string "1000ucore" = .ok { denom := "ucore", amount := 1000 } := by
  have h := (c9_coin_from_sdk_string_spec "1000ucore").1 (by decide) (by decide)
  rw [h]
  rfl

end CwIt
